import Mathlib

/-!
Verification of the metrics subsystem of the caddy-ratelimit repository
(file src/metrics.go, package caddyrl).

The Go code is shallowly embedded as follows:
* Prometheus counter/histogram/gauge vectors are modelled as total maps
  from label-value lists to exact rational values (Go stores float64; every
  operation the code performs — increment by 1, absolute set to an integer,
  observing a duration — is modelled exactly over ℚ).
* A histogram cell is the list of observations made on it.
* The Prometheus registry is the list of instruments registered with it,
  in registration order.
* Go `time.Duration` is its underlying int64 nanosecond count (an Int);
  `Duration.Seconds`, `Duration.String` and `strconv.Itoa` are translated
  from the Go standard library.
* The process-global mutable state (`metricsOnce`, `globalMetrics`) is an
  explicit state record threaded through `registerMetrics`; each recording
  method of `metricsCollector` takes the current `globalMetrics` value
  (an `Option rateLimitMetrics`, `none` being Go `nil`) and returns the
  updated one.  All methods are total Lean functions: the Go code has no
  panic or error path in them.
-/

namespace CaddyRL

/-- Go `time.Duration`: a signed count of nanoseconds (int64). -/
abbrev Duration := Int

/-- Go `time.Millisecond` in nanoseconds. -/
def millisecond : Int := 1000000

/-- Go `time.Second` in nanoseconds. -/
def second : Int := 1000000000

/-- Go `Duration.Seconds()`: `sec := d / Second; nsec := d % Second;
return float64(sec) + float64(nsec)/1e9`.  Go integer `/` and `%` truncate
toward zero, i.e. `Int.tdiv` / `Int.tmod`; the float arithmetic is modelled
exactly in ℚ. -/
def durationSeconds (d : Duration) : ℚ :=
  (d.tdiv second : ℚ) + (d.tmod second : ℚ) / 1000000000

/-- Loop of Go `time.fmtFrac`: processes `prec` digits of `v` least
significant first, omitting trailing zeros; returns the printed characters
(most significant leftmost), the remaining value, and whether anything was
printed. -/
def fmtFracAux : Nat → Nat → Bool → List Char → List Char × Nat × Bool
  | v, 0, printed, acc => (acc, v, printed)
  | v, prec + 1, printed, acc =>
    let digit := v % 10
    let printed2 := printed || (digit != 0)
    fmtFracAux (v / 10) prec printed2
      (if printed2 then Nat.digitChar digit :: acc else acc)

/-- Go `time.fmtFrac(buf, v, prec)`: the fraction of `v/10**prec` (e.g.
".12345"), trailing zeros omitted, with the decimal point omitted when the
fraction is zero; also returns `v` divided by `10**prec`. -/
def fmtFrac (v : Nat) (prec : Nat) : List Char × Nat :=
  match fmtFracAux v prec false [] with
  | (acc, v2, printed) => (if printed then '.' :: acc else acc, v2)

/-- Go `time.fmtInt`: decimal representation of `v` ("0" for zero). -/
def fmtInt (v : Nat) : List Char := (Nat.repr v).data

/-- Go `time.Duration.String()`: e.g. "30s", "250ms", "1h0m0s", "1.5µs". -/
def durString (d : Duration) : String :=
  let u := d.natAbs
  let core : List Char :=
    if u < 1000000000 then
      -- less than one second: ns, µs or ms with no unit conversion loop
      if u = 0 then "0s".data
      else if u < 1000 then fmtInt u ++ ['n', 's']
      else if u < 1000000 then
        match fmtFrac u 3 with
        | (frac, v) => fmtInt v ++ frac ++ ['µ', 's']
      else
        match fmtFrac u 6 with
        | (frac, v) => fmtInt v ++ frac ++ ['m', 's']
    else
      match fmtFrac u 9 with
      | (frac, v) =>
        let secPart := fmtInt (v % 60) ++ frac ++ ['s']
        let v2 := v / 60
        if v2 = 0 then secPart
        else
          let minPart := fmtInt (v2 % 60) ++ ['m'] ++ secPart
          let v3 := v2 / 60
          if v3 = 0 then minPart else fmtInt v3 ++ ['h'] ++ minPart
  String.mk (if d < 0 ∧ u ≠ 0 then '-' :: core else core)

/-- Go `strconv.Itoa`. -/
def itoa : Int → String
  | Int.ofNat n => Nat.repr n
  | Int.negSucc n => "-" ++ Nat.repr (n + 1)

/-- Prometheus `CounterOpts` (the fields metrics.go sets). -/
structure CounterOpts where
  Namespace : String
  Subsystem : String
  Name : String
  Help : String
deriving DecidableEq

/-- Prometheus `HistogramOpts` (the fields metrics.go sets). -/
structure HistogramOpts where
  Namespace : String
  Subsystem : String
  Name : String
  Help : String
  Buckets : List ℚ
deriving DecidableEq

/-- Prometheus `GaugeOpts` (the fields metrics.go sets). -/
structure GaugeOpts where
  Namespace : String
  Subsystem : String
  Name : String
  Help : String
deriving DecidableEq

/-- An instrument as registered with a Prometheus registry. -/
inductive Instrument where
  | counterVec (opts : CounterOpts) (labelNames : List String)
  | histogramVec (opts : HistogramOpts) (labelNames : List String)
  | gaugeVec (opts : GaugeOpts) (labelNames : List String)
deriving DecidableEq

/-- A Prometheus registry: the instruments registered with it, in order. -/
abbrev Registry := List Instrument

/-- A `prometheus.CounterVec`: its options, label names, and one float
value per label-value combination (every combination starts at 0, exactly
as `WithLabelValues` creates series on demand with value 0). -/
structure CounterVec where
  opts : CounterOpts
  labelNames : List String
  data : List String → ℚ

/-- Go `vec.WithLabelValues(lvs...).Inc()`. -/
def CounterVec.inc (c : CounterVec) (lvs : List String) : CounterVec :=
  { c with data := fun l => if l = lvs then c.data l + 1 else c.data l }

/-- A `prometheus.HistogramVec`: one observation list per label-value
combination. -/
structure HistogramVec where
  opts : HistogramOpts
  labelNames : List String
  data : List String → List ℚ

/-- Go `vec.WithLabelValues(lvs...).Observe(v)`. -/
def HistogramVec.observe (h : HistogramVec) (lvs : List String) (v : ℚ) : HistogramVec :=
  { h with data := fun l => if l = lvs then h.data l ++ [v] else h.data l }

/-- Observations counted in the cumulative histogram bucket with upper
bound `le` (Prometheus counts an observation in every bucket whose bound
is ≥ the observed value). -/
def bucketCount (obs : List ℚ) (le : ℚ) : Nat := (obs.filter fun v => v ≤ le).length

/-- A `prometheus.GaugeVec`: one float value per label-value combination. -/
structure GaugeVec where
  opts : GaugeOpts
  labelNames : List String
  data : List String → ℚ

/-- Go `vec.WithLabelValues(lvs...).Set(v)`. -/
def GaugeVec.set (g : GaugeVec) (lvs : List String) (v : ℚ) : GaugeVec :=
  { g with data := fun l => if l = lvs then v else g.data l }

/-- `factory.NewCounterVec(opts, labelNames)`: registers the instrument and
returns the (all-zero) vector. -/
def newCounterVec (reg : Registry) (opts : CounterOpts) (labelNames : List String) :
    Registry × CounterVec :=
  (reg ++ [Instrument.counterVec opts labelNames],
   { opts := opts, labelNames := labelNames, data := fun _ => 0 })

/-- `factory.NewHistogramVec(opts, labelNames)`. -/
def newHistogramVec (reg : Registry) (opts : HistogramOpts) (labelNames : List String) :
    Registry × HistogramVec :=
  (reg ++ [Instrument.histogramVec opts labelNames],
   { opts := opts, labelNames := labelNames, data := fun _ => [] })

/-- `factory.NewGaugeVec(opts, labelNames)`. -/
def newGaugeVec (reg : Registry) (opts : GaugeOpts) (labelNames : List String) :
    Registry × GaugeVec :=
  (reg ++ [Instrument.gaugeVec opts labelNames],
   { opts := opts, labelNames := labelNames, data := fun _ => 0 })

/-- `rateLimitMetrics` holds all the rate limit metrics (metrics.go:13). -/
structure rateLimitMetrics where
  declinedTotal : CounterVec
  requestsTotal : CounterVec
  processTime : HistogramVec
  keysTotal : GaugeVec
  config : CounterVec

/-- `initializeMetrics` (metrics.go:29): creates and registers all rate
limit metrics with the given registry.  Registration order is the field
order of the Go struct literal. -/
def initializeMetrics (registry : Registry) : Registry × rateLimitMetrics :=
  let ns := "caddy"
  let sub := "rate_limit"
  let (registry, declinedTotal) := newCounterVec registry
    { Namespace := ns, Subsystem := sub, Name := "declined_requests_total",
      Help := "Total number of requests for which rate limit was applied (Declined with HTTP 429 status code returned)." }
    ["zone", "key"]
  let (registry, requestsTotal) := newCounterVec registry
    { Namespace := ns, Subsystem := sub, Name := "requests_total",
      Help := "Total number of requests that passed through Rate Limit module (both declined & processed)." }
    ["zone", "key"]
  let (registry, processTime) := newHistogramVec registry
    { Namespace := ns, Subsystem := sub, Name := "process_time_seconds",
      Help := "A time taken to process rate limiting for each request.",
      Buckets := [0.001, 0.005, 0.01, 0.025, 0.05, 0.1, 0.25, 0.5, 1] }
    ["zone", "key"]
  let (registry, keysTotal) := newGaugeVec registry
    { Namespace := ns, Subsystem := sub, Name := "keys_total",
      Help := "Total number of keys that each RL zone contains. (This metric is collected in the background for each zone.)" }
    ["zone"]
  let (registry, config) := newCounterVec registry
    { Namespace := ns, Subsystem := sub, Name := "config",
      Help := "Shows configuration of the rate limiter module. Reported only once on bootstrap as configuration is not dynamically configurable." }
    ["zone", "max_events", "window"]
  (registry, { declinedTotal := declinedTotal, requestsTotal := requestsTotal,
               processTime := processTime, keysTotal := keysTotal, config := config })

/-- The process-global mutable state of metrics.go: the `metricsOnce`
`sync.Once` (whether its body has run) and the `globalMetrics` pointer. -/
structure MetricsGlobals where
  metricsOnceDone : Bool
  globalMetrics : Option rateLimitMetrics

/-- A Go `error` result: `none` is `nil`. -/
abbrev GoError := Option String

/-- `registerMetrics` (metrics.go:94): `var err error;
metricsOnce.Do(func() { globalMetrics = initializeMetrics(reg) }); return err`.
The closure body runs only when the Once has not run yet; `err` is never
assigned. -/
def registerMetrics (g : MetricsGlobals) (reg : Registry) :
    MetricsGlobals × Registry × GoError :=
  let err : GoError := none
  if g.metricsOnceDone then (g, reg, err)
  else
    let (reg2, m) := initializeMetrics reg
    ({ metricsOnceDone := true, globalMetrics := some m }, reg2, err)

/-- The `IncludeKey` field of the rate-limit app's metrics configuration
(the only field of the owning configuration metrics.go reads). -/
structure MetricsConfig where
  IncludeKey : Bool

/-- The owning `RateLimitApp` configuration, restricted to the field the
metrics subsystem reads. -/
structure RateLimitApp where
  Metrics : MetricsConfig

/-- `metricsCollector` (metrics.go:103). -/
structure metricsCollector where
  globalOpts : RateLimitApp
  enabled : Bool

/-- `newMetricsCollector` (metrics.go:109). -/
def newMetricsCollector (globalOpts : RateLimitApp) : metricsCollector :=
  { enabled := true, globalOpts := globalOpts }

/-- `recordRequest` (metrics.go:117). -/
def recordRequest (mc : metricsCollector) (gm : Option rateLimitMetrics)
    (hasZone : Bool) : Option rateLimitMetrics :=
  if !mc.enabled || gm.isNone then gm else
  match gm with
  | none => gm
  | some m =>
    let hasZoneStr := if hasZone then "true" else "false"
    some { m with requestsTotal := m.requestsTotal.inc [hasZoneStr, ""] }

/-- `recordRequestPerKey` (metrics.go:131). -/
def recordRequestPerKey (mc : metricsCollector) (gm : Option rateLimitMetrics)
    (zone key : String) : Option rateLimitMetrics :=
  if !mc.enabled || gm.isNone then gm else
  match gm with
  | none => gm
  | some m =>
    let m := { m with requestsTotal := m.requestsTotal.inc [zone, ""] }
    let m := if mc.globalOpts.Metrics.IncludeKey
             then { m with requestsTotal := m.requestsTotal.inc [zone, key] }
             else m
    some m

/-- `recordDeclinedRequest` (metrics.go:144). -/
def recordDeclinedRequest (mc : metricsCollector) (gm : Option rateLimitMetrics)
    (zone key : String) : Option rateLimitMetrics :=
  if !mc.enabled || gm.isNone then gm else
  match gm with
  | none => gm
  | some m =>
    let m := { m with declinedTotal := m.declinedTotal.inc [zone, ""] }
    let m := if mc.globalOpts.Metrics.IncludeKey
             then { m with declinedTotal := m.declinedTotal.inc [zone, key] }
             else m
    some m

/-- `recordProcessTime` (metrics.go:157). -/
def recordProcessTime (mc : metricsCollector) (gm : Option rateLimitMetrics)
    (duration : Duration) (hasZone : Bool) : Option rateLimitMetrics :=
  if !mc.enabled || gm.isNone then gm else
  match gm with
  | none => gm
  | some m =>
    let hasZoneStr := if hasZone then "true" else "false"
    some { m with processTime := m.processTime.observe [hasZoneStr, ""] (durationSeconds duration) }

/-- `recordProcessTimePerKey` (metrics.go:171). -/
def recordProcessTimePerKey (mc : metricsCollector) (gm : Option rateLimitMetrics)
    (duration : Duration) (zone key : String) : Option rateLimitMetrics :=
  if !mc.enabled || gm.isNone then gm else
  match gm with
  | none => gm
  | some m =>
    let m := { m with processTime := m.processTime.observe [zone, ""] (durationSeconds duration) }
    let m := if mc.globalOpts.Metrics.IncludeKey
             then { m with processTime := m.processTime.observe [zone, key] (durationSeconds duration) }
             else m
    some m

/-- `updateKeysCount` (metrics.go:184). -/
def updateKeysCount (mc : metricsCollector) (gm : Option rateLimitMetrics)
    (zone : String) (count : Int) : Option rateLimitMetrics :=
  if !mc.enabled || gm.isNone then gm else
  match gm with
  | none => gm
  | some m =>
    some { m with keysTotal := m.keysTotal.set [zone] (count : ℚ) }

/-- `recordConfig` (metrics.go:193). -/
def recordConfig (mc : metricsCollector) (gm : Option rateLimitMetrics)
    (zone : String) (maxEvents : Int) (window : Duration) : Option rateLimitMetrics :=
  if !mc.enabled || gm.isNone then gm else
  match gm with
  | none => gm
  | some m =>
    some { m with config := m.config.inc [zone, itoa maxEvents, durString window] }

/-- The freshly initialized instrument set (all series at zero). -/
def zeroMetrics : rateLimitMetrics := (initializeMetrics []).2

/-- A collector with per-key detail enabled. -/
def mcWithKey : metricsCollector :=
  newMetricsCollector { Metrics := { IncludeKey := true } }

/-- A collector with per-key detail disabled. -/
def mcNoKey : metricsCollector :=
  newMetricsCollector { Metrics := { IncludeKey := false } }

/-- Closed form of Go `Duration.Seconds()`: truncated division plus
truncated remainder over 1e9 is exactly the nanosecond count over 1e9. -/
theorem durationSeconds_eq (d : Duration) :
    durationSeconds d = (d : ℚ) / 1000000000 := by
  have h0 := Int.tmod_add_tdiv d second
  have h : ((d.tmod second : ℤ) : ℚ) + (second : ℚ) * ((d.tdiv second : ℤ) : ℚ) = (d : ℚ) := by
    exact_mod_cast congrArg (fun z : ℤ => (z : ℚ)) h0
  have hs : ((second : ℤ) : ℚ) = 1000000000 := by norm_num [second]
  rw [hs] at h
  rw [durationSeconds]
  field_simp
  linarith

/-- Concrete evaluation of the Go duration formatter at thirty seconds. -/
theorem durString_30s : durString (30 * second) = "30s" := by decide

/-- Concrete evaluation of strconv.Itoa at 10. -/
theorem itoa_10 : itoa 10 = "10" := by decide

/-- Concrete evaluation of strconv.Itoa at 20. -/
theorem itoa_20 : itoa 20 = "20" := by decide

/-- Concrete evaluation of Duration.Seconds at 250 milliseconds. -/
theorem durationSeconds_250ms : durationSeconds (250 * millisecond) = 0.25 := by
  rw [durationSeconds_eq]
  norm_num [millisecond]

/-- Claim C1: on an enabled collector with an initialized instrument set,
recordRequestPerKey, recordDeclinedRequest and recordProcessTimePerKey each
write the zone-level aggregate observation at label pair (zone, "")
unconditionally, and write the additional per-key observation at
(zone, key) if and only if the IncludeKey policy flag is enabled. -/
theorem C1_perKey_ops_aggregate_always_detail_iff_IncludeKey
    (m : rateLimitMetrics) (mc : metricsCollector) (zone key : String) (d : Duration)
    (h : mc.enabled = true) :
    (∀ lvs, ((recordRequestPerKey mc (some m) zone key).map fun m2 => m2.requestsTotal.data lvs)
        = some (m.requestsTotal.data lvs + (if lvs = [zone, ""] then 1 else 0)
            + (if mc.globalOpts.Metrics.IncludeKey = true ∧ lvs = [zone, key] then 1 else 0)))
    ∧ (∀ lvs, ((recordDeclinedRequest mc (some m) zone key).map fun m2 => m2.declinedTotal.data lvs)
        = some (m.declinedTotal.data lvs + (if lvs = [zone, ""] then 1 else 0)
            + (if mc.globalOpts.Metrics.IncludeKey = true ∧ lvs = [zone, key] then 1 else 0)))
    ∧ (∀ lvs, ((recordProcessTimePerKey mc (some m) d zone key).map fun m2 => m2.processTime.data lvs)
        = some ((m.processTime.data lvs ++ (if lvs = [zone, ""] then [durationSeconds d] else []))
            ++ (if mc.globalOpts.Metrics.IncludeKey = true ∧ lvs = [zone, key] then [durationSeconds d] else []))) := by
  refine ⟨fun lvs => ?_, fun lvs => ?_, fun lvs => ?_⟩ <;>
    cases hk : mc.globalOpts.Metrics.IncludeKey <;>
      simp [recordRequestPerKey, recordDeclinedRequest, recordProcessTimePerKey,
        CounterVec.inc, HistogramVec.observe, h, hk] <;>
      split_ifs <;> simp_all

/-- Witness for C1 at a concrete input: enabled collector with IncludeKey
set, fresh instruments, zone "z", key "k"; the aggregate series (z, "")
reads 1 afterwards. -/
theorem C1_witness :
    mcWithKey.enabled = true ∧
    ((recordRequestPerKey mcWithKey (some zeroMetrics) "z" "k").map fun m2 =>
        m2.requestsTotal.data ["z", ""]) = some 1 := by
  refine ⟨rfl, ?_⟩
  have h := (C1_perKey_ops_aggregate_always_detail_iff_IncludeKey zeroMetrics mcWithKey
      "z" "k" 0 rfl).1 ["z", ""]
  simpa [zeroMetrics, initializeMetrics, newCounterVec, newHistogramVec, newGaugeVec,
    mcWithKey, newMetricsCollector] using h

/-- Claim C2 counterexample: with IncludeKey disabled, an enabled collector
on fresh instruments leaves the per-key declined series (z, k) at 0 after
recordDeclinedRequest(z, k) — the per-key decline write is NOT
unconditional. -/
theorem C2_counterexample :
    ((recordDeclinedRequest mcNoKey (some zeroMetrics) "z" "k").map fun m2 =>
        m2.declinedTotal.data ["z", "k"]) = some 0
    ∧ ¬ ((recordDeclinedRequest mcNoKey (some zeroMetrics) "z" "k").map fun m2 =>
        m2.declinedTotal.data ["z", "k"]) = some 1 := by
  constructor <;>
    simp [recordDeclinedRequest, mcNoKey, newMetricsCollector, zeroMetrics,
      initializeMetrics, newCounterVec, newHistogramVec, newGaugeVec, CounterVec.inc]

/-- Claim C2 (amended): recordDeclinedRequest on an enabled, initialized
collector increments declined_total at (zone, "") unconditionally and at
(zone, key) if and only if IncludeKey is enabled — the decline path is
gated by the policy exactly like the other per-key operations. -/
theorem C2_amended_declined_perKey_iff_IncludeKey
    (m : rateLimitMetrics) (mc : metricsCollector) (zone key : String)
    (h : mc.enabled = true) :
    ∀ lvs, ((recordDeclinedRequest mc (some m) zone key).map fun m2 => m2.declinedTotal.data lvs)
      = some (m.declinedTotal.data lvs + (if lvs = [zone, ""] then 1 else 0)
          + (if mc.globalOpts.Metrics.IncludeKey = true ∧ lvs = [zone, key] then 1 else 0)) := by
  intro lvs
  cases hk : mc.globalOpts.Metrics.IncludeKey <;>
    simp [recordDeclinedRequest, CounterVec.inc, h, hk] <;>
    split_ifs <;> simp_all

/-- Witness for the amended C2: with IncludeKey disabled the aggregate
series still reads 1 after one declined request. -/
theorem C2_amended_witness :
    mcNoKey.enabled = true ∧
    ((recordDeclinedRequest mcNoKey (some zeroMetrics) "z" "k").map fun m2 =>
        m2.declinedTotal.data ["z", ""]) = some 1 := by
  refine ⟨rfl, ?_⟩
  have h := C2_amended_declined_perKey_iff_IncludeKey zeroMetrics mcNoKey "z" "k" rfl ["z", ""]
  simpa [zeroMetrics, initializeMetrics, newCounterVec, newHistogramVec, newGaugeVec,
    mcNoKey, newMetricsCollector] using h

/-- A collector whose enabled flag is cleared (reachable only from tests,
per the spec). -/
def mcDisabled : metricsCollector :=
  { globalOpts := { Metrics := { IncludeKey := true } }, enabled := false }

/-- Claim C3: registerMetrics is effectively at-most-once and never fails:
from a fresh state it runs initializeMetrics against its own registry
argument (appending exactly five instruments) and stores the resulting
instrument set; once the sync.Once has fired, every later call leaves both
the global state and the registry unchanged; and every call, first or
later, returns a nil error. -/
theorem C3_registerMetrics_at_most_once_never_fails
    (g : MetricsGlobals) (reg : Registry) (h : g.metricsOnceDone = false) :
    ((registerMetrics g reg).1.metricsOnceDone = true
      ∧ (registerMetrics g reg).1.globalMetrics = some (initializeMetrics reg).2
      ∧ (registerMetrics g reg).2.1 = (initializeMetrics reg).1
      ∧ (initializeMetrics reg).1.take reg.length = reg
      ∧ (initializeMetrics reg).1.length = reg.length + 5)
    ∧ (∀ (g2 : MetricsGlobals) (r : Registry), g2.metricsOnceDone = true →
        registerMetrics g2 r = (g2, r, (none : GoError)))
    ∧ (∀ (g3 : MetricsGlobals) (r : Registry), (registerMetrics g3 r).2.2 = (none : GoError)) := by
  refine ⟨⟨?_, ?_, ?_, ?_, ?_⟩, ?_, ?_⟩
  · simp [registerMetrics, h]
  · simp [registerMetrics, h]
  · simp [registerMetrics, h]
  · simp only [initializeMetrics, newCounterVec, newHistogramVec, newGaugeVec,
      List.append_assoc, List.singleton_append]
    exact List.take_left reg _
  · simp [initializeMetrics, newCounterVec, newHistogramVec, newGaugeVec]
  · intro g2 r h2
    simp [registerMetrics, h2]
  · intro g3 r
    by_cases h3 : g3.metricsOnceDone <;> simp [registerMetrics, h3]

/-- Witness for C3: a fresh global state and an empty registry; the first
call flips the once-guard and installs the instrument set. -/
theorem C3_witness :
    (⟨false, none⟩ : MetricsGlobals).metricsOnceDone = false
    ∧ (registerMetrics ⟨false, none⟩ []).1.metricsOnceDone = true
    ∧ (registerMetrics ⟨false, none⟩ []).1.globalMetrics = some (initializeMetrics []).2 :=
  ⟨rfl,
   (C3_registerMetrics_at_most_once_never_fails ⟨false, none⟩ [] rfl).1.1,
   (C3_registerMetrics_at_most_once_never_fails ⟨false, none⟩ [] rfl).1.2.1⟩

/-- Claim C4: every recording operation is a silent no-op — the instrument
state is returned unchanged and there is no error or panic path (the
embedding is a total function) — whenever the global instrument set is nil
or the collector's enabled flag is false. -/
theorem C4_recording_noop_when_uninitialized_or_disabled
    (mc : metricsCollector) (gm : Option rateLimitMetrics) (hasZone : Bool)
    (zone key : String) (d : Duration) (count maxEvents : Int)
    (h : mc.enabled = false ∨ gm = none) :
    recordRequest mc gm hasZone = gm
    ∧ recordRequestPerKey mc gm zone key = gm
    ∧ recordDeclinedRequest mc gm zone key = gm
    ∧ recordProcessTime mc gm d hasZone = gm
    ∧ recordProcessTimePerKey mc gm d zone key = gm
    ∧ updateKeysCount mc gm zone count = gm
    ∧ recordConfig mc gm zone maxEvents d = gm := by
  rcases h with h | h
  · refine ⟨?_, ?_, ?_, ?_, ?_, ?_, ?_⟩ <;>
      simp [recordRequest, recordRequestPerKey, recordDeclinedRequest, recordProcessTime,
        recordProcessTimePerKey, updateKeysCount, recordConfig, h]
  · subst h
    refine ⟨?_, ?_, ?_, ?_, ?_, ?_, ?_⟩ <;>
      simp [recordRequest, recordRequestPerKey, recordDeclinedRequest, recordProcessTime,
        recordProcessTimePerKey, updateKeysCount, recordConfig]

/-- Witness for C4: a disabled collector leaves an initialized instrument
set untouched. -/
theorem C4_witness :
    (mcDisabled.enabled = false ∨ (some zeroMetrics : Option rateLimitMetrics) = none)
    ∧ recordRequest mcDisabled (some zeroMetrics) true = some zeroMetrics :=
  ⟨Or.inl rfl,
   (C4_recording_noop_when_uninitialized_or_disabled mcDisabled (some zeroMetrics) true
      "z" "k" 0 0 0 (Or.inl rfl)).1⟩

/-- Claim C5: the instrument set built by initializeMetrics is bit-exact as
specified: namespace "caddy" and subsystem "rate_limit" on all five
instruments; names declined_requests_total, requests_total,
process_time_seconds, keys_total and config; label sets (zone, key) for the
first three, (zone) for keys_total, (zone, max_events, window) for config;
and the histogram bucket bounds 0.001, 0.005, 0.01, 0.025, 0.05, 0.1,
0.25, 0.5, 1 seconds. -/
theorem C5_instrument_set_definition (reg : Registry) :
    ((initializeMetrics reg).2.declinedTotal.opts.Namespace = "caddy"
      ∧ (initializeMetrics reg).2.declinedTotal.opts.Subsystem = "rate_limit"
      ∧ (initializeMetrics reg).2.declinedTotal.opts.Name = "declined_requests_total"
      ∧ (initializeMetrics reg).2.declinedTotal.labelNames = ["zone", "key"])
    ∧ ((initializeMetrics reg).2.requestsTotal.opts.Namespace = "caddy"
      ∧ (initializeMetrics reg).2.requestsTotal.opts.Subsystem = "rate_limit"
      ∧ (initializeMetrics reg).2.requestsTotal.opts.Name = "requests_total"
      ∧ (initializeMetrics reg).2.requestsTotal.labelNames = ["zone", "key"])
    ∧ ((initializeMetrics reg).2.processTime.opts.Namespace = "caddy"
      ∧ (initializeMetrics reg).2.processTime.opts.Subsystem = "rate_limit"
      ∧ (initializeMetrics reg).2.processTime.opts.Name = "process_time_seconds"
      ∧ (initializeMetrics reg).2.processTime.labelNames = ["zone", "key"]
      ∧ (initializeMetrics reg).2.processTime.opts.Buckets
          = [0.001, 0.005, 0.01, 0.025, 0.05, 0.1, 0.25, 0.5, 1])
    ∧ ((initializeMetrics reg).2.keysTotal.opts.Namespace = "caddy"
      ∧ (initializeMetrics reg).2.keysTotal.opts.Subsystem = "rate_limit"
      ∧ (initializeMetrics reg).2.keysTotal.opts.Name = "keys_total"
      ∧ (initializeMetrics reg).2.keysTotal.labelNames = ["zone"])
    ∧ ((initializeMetrics reg).2.config.opts.Namespace = "caddy"
      ∧ (initializeMetrics reg).2.config.opts.Subsystem = "rate_limit"
      ∧ (initializeMetrics reg).2.config.opts.Name = "config"
      ∧ (initializeMetrics reg).2.config.labelNames = ["zone", "max_events", "window"]) :=
  ⟨⟨rfl, rfl, rfl, rfl⟩, ⟨rfl, rfl, rfl, rfl⟩, ⟨rfl, rfl, rfl, rfl, rfl⟩,
   ⟨rfl, rfl, rfl, rfl⟩, ⟨rfl, rfl, rfl, rfl⟩⟩

/-- Claim C6: recordConfig(z, maxEvents, window) on an enabled, initialized
collector increments exactly the config series labeled with z, the decimal
string of maxEvents and the Go duration string of window by 1, leaving
every other label combination unchanged; hence one call for ("z", 10, 30s)
yields 1 there, and a second call with maxEvents 20 yields an independent
combination also equal to 1 while the first remains 1. -/
theorem C6_recordConfig_increments_exactly_one_series
    (m : rateLimitMetrics) (mc : metricsCollector) (zone : String)
    (maxEvents : Int) (window : Duration) (h : mc.enabled = true) :
    (∀ lvs, ((recordConfig mc (some m) zone maxEvents window).map fun m2 => m2.config.data lvs)
        = some (m.config.data lvs
            + if lvs = [zone, itoa maxEvents, durString window] then 1 else 0))
    ∧ (((recordConfig mcWithKey (recordConfig mcWithKey (some zeroMetrics) "z" 10 (30 * second))
          "z" 20 (30 * second)).map fun m2 => m2.config.data ["z", "10", "30s"]) = some 1
      ∧ ((recordConfig mcWithKey (recordConfig mcWithKey (some zeroMetrics) "z" 10 (30 * second))
          "z" 20 (30 * second)).map fun m2 => m2.config.data ["z", "20", "30s"]) = some 1) := by
  constructor
  · intro lvs
    simp [recordConfig, CounterVec.inc, h]
    split_ifs <;> simp_all
  · constructor <;>
      simp [recordConfig, CounterVec.inc, mcWithKey, newMetricsCollector, zeroMetrics,
        initializeMetrics, newCounterVec, newHistogramVec, newGaugeVec, itoa_10, itoa_20,
        durString_30s]

/-- Witness for C6: one call on fresh instruments with maxEvents 10 and a
30-second window puts the series ("z", "10", "30s") at 1. -/
theorem C6_witness :
    mcWithKey.enabled = true ∧
    ((recordConfig mcWithKey (some zeroMetrics) "z" 10 (30 * second)).map fun m2 =>
        m2.config.data ["z", "10", "30s"]) = some 1 := by
  refine ⟨rfl, ?_⟩
  have h := (C6_recordConfig_increments_exactly_one_series zeroMetrics mcWithKey
      "z" 10 (30 * second) rfl).1 ["z", "10", "30s"]
  simpa [zeroMetrics, initializeMetrics, newCounterVec, newHistogramVec, newGaugeVec,
    itoa_10, durString_30s] using h

/-- Claim C7: updateKeysCount(z, n) sets the keys_total gauge for zone z to
n as an absolute assignment, not an increment: one call sets the z series
to n leaving every other series unchanged, and two successive calls with a
then b leave the gauge at b (last writer wins). -/
theorem C7_updateKeysCount_absolute_last_writer_wins
    (m : rateLimitMetrics) (mc : metricsCollector) (zone : String) (a b : Int)
    (h : mc.enabled = true) :
    (∀ lvs, ((updateKeysCount mc (some m) zone a).map fun m2 => m2.keysTotal.data lvs)
        = some (if lvs = [zone] then (a : ℚ) else m.keysTotal.data lvs))
    ∧ ((updateKeysCount mc (updateKeysCount mc (some m) zone a) zone b).map fun m2 =>
        m2.keysTotal.data [zone]) = some ((b : Int) : ℚ) := by
  constructor
  · intro lvs
    simp [updateKeysCount, GaugeVec.set, h]
  · simp [updateKeysCount, GaugeVec.set, h]

/-- Witness for C7: setting "z" to 5 then to 3 leaves the gauge at 3. -/
theorem C7_witness :
    mcWithKey.enabled = true ∧
    ((updateKeysCount mcWithKey (updateKeysCount mcWithKey (some zeroMetrics) "z" 5) "z" 3).map
        fun m2 => m2.keysTotal.data ["z"]) = some ((3 : Int) : ℚ) :=
  ⟨rfl, (C7_updateKeysCount_absolute_last_writer_wins zeroMetrics mcWithKey "z" 5 3 rfl).2⟩

/-- Claim C8: recordProcessTime and recordProcessTimePerKey observe the
elapsed duration converted to seconds (the Duration.Seconds value, the
nanosecond count over 1e9) — not milliseconds or nanoseconds; a 250ms
duration records the observation 0.25, which is counted in the histogram
bucket with upper bound 0.25 seconds, a bound the instrument declares. -/
theorem C8_process_time_observed_in_seconds
    (m : rateLimitMetrics) (mc : metricsCollector) (d : Duration) (hasZone : Bool)
    (zone key : String) (h : mc.enabled = true) :
    (durationSeconds d = (d : ℚ) / 1000000000)
    ∧ ((recordProcessTime mc (some m) d hasZone).map fun m2 =>
        m2.processTime.data [if hasZone then "true" else "false", ""])
      = some (m.processTime.data [if hasZone then "true" else "false", ""] ++ [durationSeconds d])
    ∧ (∀ lvs, ((recordProcessTimePerKey mc (some m) d zone key).map fun m2 =>
          m2.processTime.data lvs)
        = some ((m.processTime.data lvs ++ (if lvs = [zone, ""] then [durationSeconds d] else []))
            ++ (if mc.globalOpts.Metrics.IncludeKey = true ∧ lvs = [zone, key]
                then [durationSeconds d] else [])))
    ∧ (((recordProcessTime mcWithKey (some zeroMetrics) (250 * millisecond) true).map fun m2 =>
          m2.processTime.data ["true", ""]) = some [0.25]
      ∧ ((recordProcessTime mcWithKey (some zeroMetrics) (250 * millisecond) true).map fun m2 =>
          bucketCount (m2.processTime.data ["true", ""]) 0.25) = some 1
      ∧ (0.25 : ℚ) ∈ (initializeMetrics []).2.processTime.opts.Buckets) := by
  refine ⟨durationSeconds_eq d, ?_, fun lvs => ?_, ?_, ?_, ?_⟩
  · simp [recordProcessTime, HistogramVec.observe, h]
  · cases hk : mc.globalOpts.Metrics.IncludeKey <;>
      simp [recordProcessTimePerKey, HistogramVec.observe, h, hk] <;>
      split_ifs <;> simp_all
  · simp [recordProcessTime, HistogramVec.observe, mcWithKey, newMetricsCollector,
      zeroMetrics, initializeMetrics, newCounterVec, newHistogramVec, newGaugeVec,
      durationSeconds_250ms]
  · simp [recordProcessTime, HistogramVec.observe, mcWithKey, newMetricsCollector,
      zeroMetrics, initializeMetrics, newCounterVec, newHistogramVec, newGaugeVec,
      durationSeconds_250ms, bucketCount]
  · simp [initializeMetrics, newCounterVec, newHistogramVec, newGaugeVec]

/-- Witness for C8: at 250 milliseconds the observed value is 0.25
seconds. -/
theorem C8_witness :
    mcWithKey.enabled = true ∧
    ((recordProcessTime mcWithKey (some zeroMetrics) (250 * millisecond) true).map fun m2 =>
        m2.processTime.data ["true", ""]) = some [0.25] :=
  ⟨rfl, (C8_process_time_observed_in_seconds zeroMetrics mcWithKey (250 * millisecond) true
      "z" "k" rfl).2.2.2.1⟩

/-- Claim C9: recordRequest and recordProcessTime place the string "true"
or "false" in the zone label position with an empty key, on the same
requests_total and process_time instruments used for real zone names; with
per-key detail disabled, recordRequest is indistinguishable from the
zone-level aggregate write of recordRequestPerKey for a zone literally
named "true" or "false" — the degenerate series alias those aggregates. -/
theorem C9_hasZone_encoded_as_zone_label_string
    (m : rateLimitMetrics) (mc : metricsCollector) (hasZone : Bool) (d : Duration) (key : String)
    (h : mc.enabled = true) :
    (∀ lvs, ((recordRequest mc (some m) hasZone).map fun m2 => m2.requestsTotal.data lvs)
        = some (m.requestsTotal.data lvs
            + if lvs = [if hasZone then "true" else "false", ""] then 1 else 0))
    ∧ (∀ lvs, ((recordProcessTime mc (some m) d hasZone).map fun m2 => m2.processTime.data lvs)
        = some (m.processTime.data lvs
            ++ if lvs = [if hasZone then "true" else "false", ""] then [durationSeconds d] else []))
    ∧ (mc.globalOpts.Metrics.IncludeKey = false →
        recordRequest mc (some m) true = recordRequestPerKey mc (some m) "true" key
        ∧ recordRequest mc (some m) false = recordRequestPerKey mc (some m) "false" key) := by
  refine ⟨fun lvs => ?_, fun lvs => ?_, fun hk => ⟨?_, ?_⟩⟩
  · simp [recordRequest, CounterVec.inc, h]
    split_ifs <;> simp_all
  · simp [recordProcessTime, HistogramVec.observe, h]
    split_ifs <;> simp_all
  · simp [recordRequest, recordRequestPerKey, h, hk]
  · simp [recordRequest, recordRequestPerKey, h, hk]

/-- Witness for C9: with no zone matched, the series ("false", "") of
requests_total advances. -/
theorem C9_witness :
    mcNoKey.enabled = true ∧
    ((recordRequest mcNoKey (some zeroMetrics) false).map fun m2 =>
        m2.requestsTotal.data ["false", ""]) = some 1 := by
  refine ⟨rfl, ?_⟩
  have h := (C9_hasZone_encoded_as_zone_label_string zeroMetrics mcNoKey false 0 "k" rfl).1
      ["false", ""]
  simpa [zeroMetrics, initializeMetrics, newCounterVec, newHistogramVec, newGaugeVec] using h

/-- Claim C10: with IncludeKey enabled and an empty key, the aggregate and
per-key writes target the same label combination (zone, ""): each counter
advances by 2 in a single call and the histogram receives the same
duration twice. -/
theorem C10_empty_key_aliases_aggregate
    (m : rateLimitMetrics) (mc : metricsCollector) (zone : String) (d : Duration)
    (h : mc.enabled = true) (hk : mc.globalOpts.Metrics.IncludeKey = true) :
    ((recordRequestPerKey mc (some m) zone "").map fun m2 => m2.requestsTotal.data [zone, ""])
      = some (m.requestsTotal.data [zone, ""] + 2)
    ∧ ((recordDeclinedRequest mc (some m) zone "").map fun m2 => m2.declinedTotal.data [zone, ""])
      = some (m.declinedTotal.data [zone, ""] + 2)
    ∧ ((recordProcessTimePerKey mc (some m) d zone "").map fun m2 => m2.processTime.data [zone, ""])
      = some (m.processTime.data [zone, ""] ++ [durationSeconds d, durationSeconds d]) := by
  refine ⟨?_, ?_, ?_⟩ <;>
    simp [recordRequestPerKey, recordDeclinedRequest, recordProcessTimePerKey,
      CounterVec.inc, HistogramVec.observe, h, hk] <;>
    try ring

/-- Witness for C10: one empty-key call on fresh instruments puts the
aggregate requests series at 2. -/
theorem C10_witness :
    mcWithKey.enabled = true ∧ mcWithKey.globalOpts.Metrics.IncludeKey = true ∧
    ((recordRequestPerKey mcWithKey (some zeroMetrics) "z" "").map fun m2 =>
        m2.requestsTotal.data ["z", ""]) = some 2 := by
  refine ⟨rfl, rfl, ?_⟩
  have h := (C10_empty_key_aliases_aggregate zeroMetrics mcWithKey "z" 0 rfl rfl).1
  simpa [zeroMetrics, initializeMetrics, newCounterVec, newHistogramVec, newGaugeVec] using h

end CaddyRL
